import Mathlib

/-!
Verification development for the `rust_mcp_sdk` crate (an MCP SDK: JSON-RPC 2.0
client/server over framed transports).

The development shallowly embeds the crate's data model and the pure logic of
its session/dispatch code:

* `Json` models `serde_json::Value` (numbers as `Int`: every value appearing in
  the embedded code paths is integral).
* The wire records of `src/types.rs` (`Tool`, `CallToolResult`, `Request`,
  `Response`, `ErrorResponse`, capability descriptors, ...) are Lean structures
  with `toJson` / `fromJson` functions mirroring the serde derives
  (camelCase renames, `skip_serializing_if`, `#[serde(default)]`, untagged and
  internally tagged enums, unknown fields ignored).
* `dispatchRequest` / `handleInit` / `runLoop` embed
  `ServerSession::dispatch_request`, `ServerSession::handle_initialize` and the
  inbound arm of `ServerSession::run` (`src/server/session.rs`).  Handlers are
  modelled as pure functions; the `ConnectionHandle` argument is dropped since
  its only capability (queueing notifications) is not exercised by any claim,
  and transport sends are modelled as always succeeding (the mock-adapter
  semantics of the crate's own unit tests), so a dispatch step returns the
  dispatch `Result` value, the updated `is_initialized` flag and the list of
  JSON messages sent.
* `handleResponse` / `clientInboundStep` embed `ClientSession::handle_response`
  and the inbound arm of `ClientSession::run` (`src/client/session.rs`).
* `requestCounter` embeds the `AtomicI64` request-id allocation of
  `Client::new_request_id` (`src/client/client.rs`) with i64 wrapping made
  explicit.
* `toolArgumentsDerive` embeds the schema computation of the
  `#[derive(ToolArguments)]` macro (`mcp_sdk_macros/src/lib.rs`) over a model
  of the field syntax it consumes.

Functions supplied by external crates and instantiated generically in the
source (`serde_json::from_value::<Args>`, `serde_json::to_string_pretty`) are
taken as parameters, exactly as the Rust generics take them.
-/

namespace McpSdk

/-- Model of `serde_json::Value`.  Object members keep insertion order; a
`Value` produced by `serde_json` never holds a duplicate key, so lookups take
the first binding. -/
inductive Json where
  | null
  | bool (b : Bool)
  | num (n : Int)
  | str (s : String)
  | arr (elems : List Json)
  | obj (members : List (String × Json))
deriving Repr, Inhabited

/-- Model of `Value::get(key)`: `Some` binding on objects, `None` otherwise. -/
def Json.get : Json → String → Option Json
  | .obj ms, k => ms.lookup k
  | _, _ => none

/-- Model of `Value::index` (`value["key"]`): like `get`, defaulting to `Null`. -/
def Json.index (j : Json) (k : String) : Json :=
  (j.get k).getD .null

/-- Model of `serde_json::Map::insert`: replace the binding if the key is
present, append otherwise (key order is irrelevant to every claim). -/
def mapInsert {α : Type} (k : String) (v : α) : List (String × α) → List (String × α)
  | [] => [(k, v)]
  | (k', v') :: rest => if k' = k then (k, v) :: rest else (k', v') :: mapInsert k v rest

/-! ## Wire records (`src/types.rs`) -/

/-- Protocol version constant `LATEST_PROTOCOL_VERSION`. -/
def LATEST_PROTOCOL_VERSION : String := "2024-11-05"

/-- Error code `METHOD_NOT_FOUND`. -/
def METHOD_NOT_FOUND : Int := -32601
/-- Error code `INVALID_PARAMS`. -/
def INVALID_PARAMS : Int := -32602
/-- Error code `INTERNAL_ERROR`. -/
def INTERNAL_ERROR : Int := -32603

/-- Model of `RequestId`: untagged `i64` or `String`. -/
inductive RequestId where
  | num (n : Int)
  | str (s : String)
deriving Repr, DecidableEq

/-- Serialisation of `RequestId` (untagged). -/
def RequestId.toJson : RequestId → Json
  | .num n => .num n
  | .str s => .str s

/-- Deserialisation of `RequestId`: the untagged derive tries the `i64` variant,
then the `String` variant. -/
def RequestId.fromJson : Json → Except String RequestId
  | .num n => if -(2 ^ 63) ≤ n ∧ n < 2 ^ 63 then .ok (.num n) else .error "number out of i64 range"
  | .str s => .ok (.str s)
  | _ => .error "data did not match any variant of untagged enum RequestId"

/-- Model of `ErrorData`: a JSON-RPC error payload. -/
structure ErrorData where
  code : Int
  message : String
deriving Repr, DecidableEq

/-- Serialisation of `ErrorData`. -/
def ErrorData.toJson (e : ErrorData) : Json :=
  .obj [("code", .num e.code), ("message", .str e.message)]

/-- Model of `TextResourceContents`. -/
structure TextResourceContents where
  uri : String
  mimeType : Option String
  text : String
deriving Repr, DecidableEq

/-- Model of `BlobResourceContents`. -/
structure BlobResourceContents where
  uri : String
  mimeType : Option String
  blob : String
deriving Repr, DecidableEq

/-- Model of `ResourceContents` (untagged enum). -/
inductive ResourceContents where
  | text (t : TextResourceContents)
  | blob (b : BlobResourceContents)
deriving Repr, DecidableEq

/-- Model of `Content` (internally tagged by `"type"`, lowercase variant names). -/
inductive Content where
  | text (text : String)
  | image (data : String) (mimeType : String)
  | resource (resource : ResourceContents)
deriving Repr, DecidableEq

/-- Serialisation of `TextResourceContents` (camelCase, `mimeType` skipped when
`None`). -/
def TextResourceContents.toJson (t : TextResourceContents) : Json :=
  .obj ([("uri", .str t.uri)]
    ++ (match t.mimeType with | some m => [("mimeType", .str m)] | none => [])
    ++ [("text", .str t.text)])

/-- Serialisation of `BlobResourceContents`. -/
def BlobResourceContents.toJson (b : BlobResourceContents) : Json :=
  .obj ([("uri", .str b.uri)]
    ++ (match b.mimeType with | some m => [("mimeType", .str m)] | none => [])
    ++ [("blob", .str b.blob)])

/-- Serialisation of `ResourceContents` (untagged). -/
def ResourceContents.toJson : ResourceContents → Json
  | .text t => t.toJson
  | .blob b => b.toJson

/-- Serialisation of `Content`: the `type` tag, then the variant's fields. -/
def Content.toJson : Content → Json
  | .text t => .obj [("type", .str "text"), ("text", .str t)]
  | .image d m => .obj [("type", .str "image"), ("data", .str d), ("mimeType", .str m)]
  | .resource r => .obj [("type", .str "resource"), ("resource", r.toJson)]

/-- Model of `CallToolResult`: content items plus the `isError` flag
(`#[serde(default)]`, so it deserialises to `false` when absent). -/
structure CallToolResult where
  content : List Content
  is_error : Bool
deriving Repr, DecidableEq

/-- Default `CallToolResult` (`#[derive(Default)]`). -/
def CallToolResult.default : CallToolResult := ⟨[], false⟩

/-- Serialisation of `CallToolResult` (camelCase: `isError`). -/
def CallToolResult.toJson (r : CallToolResult) : Json :=
  .obj [("content", .arr (r.content.map Content.toJson)), ("isError", .bool r.is_error)]

/-- Model of `ToolAnnotations` (all fields optional, skipped when `None`). -/
structure ToolAnnotations where
  title : Option String
  readOnlyHint : Option Bool
  destructiveHint : Option Bool
deriving Repr, DecidableEq

/-- Serialisation of `ToolAnnotations`. -/
def ToolAnnotations.toJson (a : ToolAnnotations) : Json :=
  .obj ((match a.title with | some t => [("title", .str t)] | none => [])
    ++ (match a.readOnlyHint with | some b => [("readOnlyHint", .bool b)] | none => [])
    ++ (match a.destructiveHint with | some b => [("destructiveHint", .bool b)] | none => []))

/-- Model of `Tool`: metadata for one registered tool.  `input_schema` is a raw
JSON value (serialised under the camelCase name `inputSchema`). -/
structure Tool where
  name : String
  description : Option String
  input_schema : Json
  annotations : Option ToolAnnotations
deriving Repr

/-- Default `Tool` (empty name, `Null` schema). -/
def Tool.default : Tool := ⟨"", none, .null, none⟩

/-- Serialisation of `Tool` (camelCase; `description` and `annotations` skipped
when `None`, `inputSchema` always present). -/
def Tool.toJson (t : Tool) : Json :=
  .obj ([("name", .str t.name)]
    ++ (match t.description with | some d => [("description", .str d)] | none => [])
    ++ [("inputSchema", t.input_schema)]
    ++ (match t.annotations with | some a => [("annotations", a.toJson)] | none => []))

/-- Model of `Resource`. -/
structure Resource where
  uri : String
  name : String
  description : Option String
  mimeType : Option String
deriving Repr, DecidableEq

/-- Serialisation of `Resource`. -/
def Resource.toJson (r : Resource) : Json :=
  .obj ([("uri", .str r.uri), ("name", .str r.name)]
    ++ (match r.description with | some d => [("description", .str d)] | none => [])
    ++ (match r.mimeType with | some m => [("mimeType", .str m)] | none => []))

/-- Model of `PromptArgument`. -/
structure PromptArgument where
  name : String
  description : Option String
  required : Option Bool
deriving Repr, DecidableEq

/-- Serialisation of `PromptArgument`. -/
def PromptArgument.toJson (a : PromptArgument) : Json :=
  .obj ([("name", .str a.name)]
    ++ (match a.description with | some d => [("description", .str d)] | none => [])
    ++ (match a.required with | some b => [("required", .bool b)] | none => []))

/-- Model of `Prompt`. -/
structure Prompt where
  name : String
  description : Option String
  arguments : Option (List PromptArgument)
deriving Repr, DecidableEq

/-- Serialisation of `Prompt`. -/
def Prompt.toJson (p : Prompt) : Json :=
  .obj ([("name", .str p.name)]
    ++ (match p.description with | some d => [("description", .str d)] | none => [])
    ++ (match p.arguments with
        | some args => [("arguments", .arr (args.map PromptArgument.toJson))]
        | none => []))

/-- Model of `PromptMessage`. -/
structure PromptMessage where
  role : String
  content : Content
deriving Repr, DecidableEq

/-- Serialisation of `PromptMessage`. -/
def PromptMessage.toJson (m : PromptMessage) : Json :=
  .obj [("role", .str m.role), ("content", m.content.toJson)]

/-- Model of `ReadResourceResult`. -/
structure ReadResourceResult where
  contents : List ResourceContents
deriving Repr, DecidableEq

/-- Serialisation of `ReadResourceResult`. -/
def ReadResourceResult.toJson (r : ReadResourceResult) : Json :=
  .obj [("contents", .arr (r.contents.map ResourceContents.toJson))]

/-- Model of `ListPromptsResult`. -/
structure ListPromptsResult where
  prompts : List Prompt
deriving Repr, DecidableEq

/-- Serialisation of `ListPromptsResult`. -/
def ListPromptsResult.toJson (r : ListPromptsResult) : Json :=
  .obj [("prompts", .arr (r.prompts.map Prompt.toJson))]

/-- Model of `GetPromptResult`. -/
structure GetPromptResult where
  description : Option String
  messages : List PromptMessage
deriving Repr, DecidableEq

/-- Serialisation of `GetPromptResult`. -/
def GetPromptResult.toJson (r : GetPromptResult) : Json :=
  .obj ((match r.description with | some d => [("description", .str d)] | none => [])
    ++ [("messages", .arr (r.messages.map PromptMessage.toJson))])

/-- Model of `ToolsCapability` (`listChanged`, skipped when `None`). -/
structure ToolsCapability where
  listChanged : Option Bool
deriving Repr, DecidableEq

/-- Serialisation of `ToolsCapability`. -/
def ToolsCapability.toJson (c : ToolsCapability) : Json :=
  .obj (match c.listChanged with | some b => [("listChanged", .bool b)] | none => [])

/-- Model of `ServerCapabilities` (`tools`, skipped when `None`). -/
structure ServerCapabilities where
  tools : Option ToolsCapability
deriving Repr, DecidableEq

/-- Default `ServerCapabilities`: no capability advertised. -/
def ServerCapabilities.default : ServerCapabilities := ⟨none⟩

/-- Serialisation of `ServerCapabilities`: the `tools` field is absent from the
JSON object when `None`. -/
def ServerCapabilities.toJson (c : ServerCapabilities) : Json :=
  .obj (match c.tools with | some t => [("tools", t.toJson)] | none => [])

/-- Model of `ClientCapabilities`. -/
structure ClientCapabilities where
  tools : Option ToolsCapability
deriving Repr, DecidableEq

/-- Model of `Implementation` (a peer's name/version identity record). -/
structure Implementation where
  name : String
  version : String
deriving Repr, DecidableEq

/-- Serialisation of `Implementation`. -/
def Implementation.toJson (i : Implementation) : Json :=
  .obj [("name", .str i.name), ("version", .str i.version)]

/-- Model of `InitializeResult`. -/
structure InitializeResult where
  protocol_version : String
  capabilities : ServerCapabilities
  server_info : Implementation
deriving Repr, DecidableEq

/-- Serialisation of `InitializeResult` (field renames `protocolVersion`,
`serverInfo`). -/
def InitializeResult.toJson (r : InitializeResult) : Json :=
  .obj [("protocolVersion", .str r.protocol_version),
        ("capabilities", r.capabilities.toJson),
        ("serverInfo", r.server_info.toJson)]

/-- Model of `InitializeRequestParams`. -/
structure InitializeRequestParams where
  protocol_version : String
  capabilities : ClientCapabilities
  client_info : Implementation
deriving Repr, DecidableEq

/-- Model of `Request<T>`. -/
structure Request (T : Type) where
  jsonrpc : String
  id : RequestId
  method : String
  params : T
deriving Repr

/-- Model of `Response<T>`, applied to an already-serialised result: the JSON
message `send_serializable` produces for a `Response` (fields in declaration
order `jsonrpc`, `id`, `result`). -/
def responseToJson (id : RequestId) (result : Json) : Json :=
  .obj [("jsonrpc", .str "2.0"), ("id", id.toJson), ("result", result)]

/-- Model of `ErrorResponse` as serialised by `ServerSession::send_error`. -/
def errorResponseToJson (id : RequestId) (code : Int) (message : String) : Json :=
  .obj [("jsonrpc", .str "2.0"), ("id", id.toJson),
        ("error", ErrorData.toJson ⟨code, message⟩)]

/-- Model of `CallToolParams` (`name` plus a required raw `arguments` value). -/
structure CallToolParams where
  name : String
  arguments : Json
deriving Repr

/-- Model of `ReadResourceParams`. -/
structure ReadResourceParams where
  uri : String
deriving Repr, DecidableEq

/-- Model of `GetPromptParams` (`arguments` optional). -/
structure GetPromptParams where
  name : String
  arguments : Option Json
deriving Repr

/-- Model of `ListResourcesParams` (empty struct). -/
structure ListResourcesParams where
deriving Repr, DecidableEq

/-- Model of `ListPromptsParams` (empty struct). -/
structure ListPromptsParams where
deriving Repr, DecidableEq

/-! ## Deserialisation (serde derives; JSON objects only, the sole encoding the
sessions ever produce or receive on these paths; unknown fields are ignored) -/

/-- Helper: a required struct field (serde's `missing field` error when absent). -/
def requireField (j : Json) (k : String) : Except String Json :=
  match j.get k with
  | some v => .ok v
  | none => .error ("missing field " ++ k)

/-- Helper: a JSON string (serde's `invalid type` error otherwise). -/
def parseStr : Json → Except String String
  | .str s => .ok s
  | _ => .error "invalid type: expected a string"

/-- Helper: a JSON boolean. -/
def parseBool : Json → Except String Bool
  | .bool b => .ok b
  | _ => .error "invalid type: expected a boolean"

/-- Helper: an `Option<String>` struct field: absent or `null` is `None`. -/
def parseOptStrField (j : Json) (k : String) : Except String (Option String)
  := match j.get k with
  | none => .ok none
  | some .null => .ok none
  | some (.str s) => .ok (some s)
  | some _ => .error "invalid type: expected a string or null"

/-- Deserialisation of `Request<Value>` (all four fields required; the `params`
value is kept raw). -/
def parseRequestJson (j : Json) : Except String (Request Json) :=
  match j with
  | .obj _ => do
      let jrpc ← requireField j "jsonrpc" >>= parseStr
      let id ← requireField j "id" >>= RequestId.fromJson
      let method ← requireField j "method" >>= parseStr
      let params ← requireField j "params"
      .ok ⟨jrpc, id, method, params⟩
  | _ => .error "invalid type: expected a map"

/-- Model of `Notification<Value>` (no `id`; `params` optional). -/
structure NotificationValue where
  jsonrpc : String
  method : String
  params : Option Json
deriving Repr

/-- Deserialisation of `Notification<Value>`. -/
def parseNotificationJson (j : Json) : Except String NotificationValue :=
  match j with
  | .obj _ => do
      let jrpc ← requireField j "jsonrpc" >>= parseStr
      let method ← requireField j "method" >>= parseStr
      let params : Option Json := j.get "params"
      .ok ⟨jrpc, method, params⟩
  | _ => .error "invalid type: expected a map"

/-- Deserialisation of `CallToolParams` (`arguments` is required and raw). -/
def parseCallToolParams (j : Json) : Except String CallToolParams :=
  match j with
  | .obj _ => do
      let name ← requireField j "name" >>= parseStr
      let arguments ← requireField j "arguments"
      .ok ⟨name, arguments⟩
  | _ => .error "invalid type: expected a map"

/-- Deserialisation of `ReadResourceParams`. -/
def parseReadResourceParams (j : Json) : Except String ReadResourceParams :=
  match j with
  | .obj _ => do
      let uri ← requireField j "uri" >>= parseStr
      .ok ⟨uri⟩
  | _ => .error "invalid type: expected a map"

/-- Deserialisation of `GetPromptParams`. -/
def parseGetPromptParams (j : Json) : Except String GetPromptParams :=
  match j with
  | .obj _ => do
      let name ← requireField j "name" >>= parseStr
      .ok ⟨name, j.get "arguments"⟩
  | _ => .error "invalid type: expected a map"

/-- Deserialisation of `ListResourcesParams` (empty struct: any map). -/
def parseListResourcesParams (j : Json) : Except String ListResourcesParams :=
  match j with
  | .obj _ => .ok ⟨⟩
  | _ => .error "invalid type: expected a map"

/-- Deserialisation of `ListPromptsParams` (empty struct: any map). -/
def parseListPromptsParams (j : Json) : Except String ListPromptsParams :=
  match j with
  | .obj _ => .ok ⟨⟩
  | _ => .error "invalid type: expected a map"

/-- Deserialisation of `ToolsCapability`. -/
def parseToolsCapability (j : Json) : Except String ToolsCapability :=
  match j with
  | .obj _ =>
      (match j.get "listChanged" with
       | none => .ok ⟨none⟩
       | some .null => .ok ⟨none⟩
       | some (.bool b) => .ok ⟨some b⟩
       | some _ => .error "invalid type: expected a boolean or null")
  | _ => .error "invalid type: expected a map"

/-- Deserialisation of `ClientCapabilities` (optional `tools`). -/
def parseClientCapabilities (j : Json) : Except String ClientCapabilities :=
  match j with
  | .obj _ =>
      (match j.get "tools" with
       | none => .ok ⟨none⟩
       | some .null => .ok ⟨none⟩
       | some v => do
           let c ← parseToolsCapability v
           .ok ⟨some c⟩)
  | _ => .error "invalid type: expected a map"

/-- Deserialisation of `Implementation`. -/
def parseImplementation (j : Json) : Except String Implementation :=
  match j with
  | .obj _ => do
      let name ← requireField j "name" >>= parseStr
      let version ← requireField j "version" >>= parseStr
      .ok ⟨name, version⟩
  | _ => .error "invalid type: expected a map"

/-- Deserialisation of `InitializeRequestParams` (camelCase renames). -/
def parseInitializeRequestParams (j : Json) : Except String InitializeRequestParams :=
  match j with
  | .obj _ => do
      let pv ← requireField j "protocolVersion" >>= parseStr
      let caps ← requireField j "capabilities" >>= parseClientCapabilities
      let ci ← requireField j "clientInfo" >>= parseImplementation
      .ok ⟨pv, caps, ci⟩
  | _ => .error "invalid type: expected a map"

/-- Deserialisation of `Request<InitializeRequestParams>` as used by
`ServerSession::handle_initialize`. -/
def parseInitializeRequest (j : Json) : Except String (Request InitializeRequestParams) :=
  match j with
  | .obj _ => do
      let jrpc ← requireField j "jsonrpc" >>= parseStr
      let id ← requireField j "id" >>= RequestId.fromJson
      let method ← requireField j "method" >>= parseStr
      let params ← requireField j "params" >>= parseInitializeRequestParams
      .ok ⟨jrpc, id, method, params⟩
  | _ => .error "invalid type: expected a map"

/-- Deserialisation of `TextResourceContents` (`text` required). -/
def parseTextResourceContents (j : Json) : Except String TextResourceContents :=
  match j with
  | .obj _ => do
      let uri ← requireField j "uri" >>= parseStr
      let mt ← parseOptStrField j "mimeType"
      let text ← requireField j "text" >>= parseStr
      .ok ⟨uri, mt, text⟩
  | _ => .error "invalid type: expected a map"

/-- Deserialisation of `BlobResourceContents` (`blob` required). -/
def parseBlobResourceContents (j : Json) : Except String BlobResourceContents :=
  match j with
  | .obj _ => do
      let uri ← requireField j "uri" >>= parseStr
      let mt ← parseOptStrField j "mimeType"
      let blob ← requireField j "blob" >>= parseStr
      .ok ⟨uri, mt, blob⟩
  | _ => .error "invalid type: expected a map"

/-- Deserialisation of `ResourceContents` (untagged: text first, then blob). -/
def parseResourceContents (j : Json) : Except String ResourceContents :=
  match parseTextResourceContents j with
  | .ok t => .ok (.text t)
  | .error _ =>
      match parseBlobResourceContents j with
      | .ok b => .ok (.blob b)
      | .error _ => .error "data did not match any variant of untagged enum ResourceContents"

/-- Deserialisation of `Content` (internally tagged by `"type"`). -/
def parseContent (j : Json) : Except String Content :=
  match j.get "type" with
  | some (.str "text") => do
      let t ← requireField j "text" >>= parseStr
      .ok (.text t)
  | some (.str "image") => do
      let d ← requireField j "data" >>= parseStr
      let m ← requireField j "mimeType" >>= parseStr
      .ok (.image d m)
  | some (.str "resource") => do
      let r ← requireField j "resource" >>= parseResourceContents
      .ok (.resource r)
  | some (.str v) => .error ("unknown variant " ++ v)
  | _ => .error "missing field type"

/-- Deserialisation of `Vec<Content>`. -/
def parseContentList (j : Json) : Except String (List Content) :=
  match j with
  | .arr xs => xs.mapM parseContent
  | _ => .error "invalid type: expected a sequence"

/-- Deserialisation of `CallToolResult`: `content` required, `isError` has
`#[serde(default)]`, so a missing `isError` yields `false` (a present non-bool
is still an error). -/
def CallToolResult.fromJson (j : Json) : Except String CallToolResult :=
  match j with
  | .obj _ => do
      let content ← requireField j "content" >>= parseContentList
      let isErr ←
        (match j.get "isError" with
         | none => .ok false
         | some v => parseBool v)
      .ok ⟨content, isErr⟩
  | _ => .error "invalid type: expected a map"

/-- Deserialisation of `ToolAnnotations`. -/
def parseToolAnnotations (j : Json) : Except String ToolAnnotations :=
  match j with
  | .obj _ => do
      let title ← parseOptStrField j "title"
      let ro ←
        (match j.get "readOnlyHint" with
         | none => .ok none | some .null => .ok none
         | some (.bool b) => .ok (some b)
         | some _ => Except.error "invalid type: expected a boolean or null")
      let de ←
        (match j.get "destructiveHint" with
         | none => .ok none | some .null => .ok none
         | some (.bool b) => .ok (some b)
         | some _ => Except.error "invalid type: expected a boolean or null")
      .ok ⟨title, ro, de⟩
  | _ => .error "invalid type: expected a map"

/-- Deserialisation of `Tool` (`name` and `inputSchema` required — the schema
field is a plain `Value`, not an `Option`). -/
def Tool.fromJson (j : Json) : Except String Tool :=
  match j with
  | .obj _ => do
      let name ← requireField j "name" >>= parseStr
      let de ← parseOptStrField j "description"
      let schema ← requireField j "inputSchema"
      let ann ←
        (match j.get "annotations" with
         | none => .ok none | some .null => .ok none
         | some v => do
             let a ← parseToolAnnotations v
             pure (some a))
      .ok ⟨name, de, schema, ann⟩
  | _ => .error "invalid type: expected a map"

/-- Deserialisation of `Vec<Tool>` (the type `Client::list_tools` decodes the
response's `result` value into): requires a JSON sequence. -/
def parseToolList (j : Json) : Except String (List Tool) :=
  match j with
  | .arr xs => xs.mapM Tool.fromJson
  | _ => .error "invalid type: map, expected a sequence"

/-- Model of `Response<Value>` deserialisation (for the untagged
`JSONRPCResponse`): `jsonrpc`, `id` and `result` required. -/
def parseResponseJson (j : Json) : Except String (RequestId × Json) :=
  match j with
  | .obj _ => do
      let _ ← requireField j "jsonrpc" >>= parseStr
      let id ← requireField j "id" >>= RequestId.fromJson
      let result ← requireField j "result"
      .ok (id, result)
  | _ => .error "invalid type: expected a map"

/-- Model of `ErrorResponse` deserialisation: `jsonrpc`, `id` and
`error{code,message}` required (`code` is an `i32`). -/
def parseErrorResponse (j : Json) : Except String (RequestId × ErrorData) :=
  match j with
  | .obj _ => do
      let _ ← requireField j "jsonrpc" >>= parseStr
      let id ← requireField j "id" >>= RequestId.fromJson
      let errVal ← requireField j "error"
      match errVal with
      | .obj _ => do
          let code ←
            (match errVal.get "code" with
             | some (.num n) =>
                 if -(2 ^ 31) ≤ n ∧ n < 2 ^ 31 then Except.ok n
                 else Except.error "number out of i32 range"
             | some _ => Except.error "invalid type: expected an integer"
             | none => Except.error "missing field code")
          let message ← requireField errVal "message" >>= parseStr
          .ok (id, ⟨code, message⟩)
      | _ => .error "invalid type: expected a map"
  | _ => .error "invalid type: expected a map"

/-- Deserialisation of `JSONRPCResponse<Value>` (untagged: the `Success`
variant is tried first, then `Error`). -/
def parseJsonRpcResponse (j : Json) : Except String ((RequestId × Json) ⊕ (RequestId × ErrorData)) :=
  match parseResponseJson j with
  | .ok s => .ok (.inl s)
  | .error _ =>
      match parseErrorResponse j with
      | .ok e => .ok (.inr e)
      | .error _ => .error "data did not match any variant of untagged enum JSONRPCResponse"

/-! ## SDK error type (`src/error.rs`) -/

/-- Model of the crate's `Error` enum (the `Io` and `Serialization` payloads
are kept as their display strings). -/
inductive SdkError where
  | io (msg : String)
  | serialization (msg : String)
  | jsonRpc (data : ErrorData)
  | channelClosed
  | timeout
  | other (msg : String)
deriving Repr, DecidableEq

/-- Model of the `Display` implementation for `Error` (`err.to_string()`). -/
def SdkError.display : SdkError → String
  | .io e => "I/O error: " ++ e
  | .serialization e => "Serialization error: " ++ e
  | .jsonRpc e => "JSON-RPC error (code " ++ toString e.code ++ "): " ++ e.message
  | .channelClosed => "Internal communication channel closed"
  | .timeout => "Operation timed out"
  | .other msg => "An internal error occurred: " ++ msg

/-! ## Server registry (`src/server/server.rs`)

Handlers are user code and are modelled as pure functions of the data the
session passes them; the `ConnectionHandle` argument (whose only use is to
queue outbound notifications) is dropped, and `async` results are the plain
`Result` values the session awaits. -/

/-- Model of the internal `ToolHandler` enum: both arms receive the raw
`arguments` value (for typed tools the deserialising adapter is already baked
into the stored closure by `register_tool_typed`). -/
inductive ToolHandler where
  | untyped (h : Json → Except SdkError CallToolResult)
  | typed (h : Json → Except SdkError CallToolResult)

/-- Invocation of a stored `ToolHandler` with the raw `arguments` value — the
match `dispatch_request` performs on the enum (both arms call through). -/
def ToolHandler.call (h : ToolHandler) (args : Json) : Except SdkError CallToolResult :=
  match h with
  | .untyped f => f args
  | .typed f => f args

/-- Model of `Server`: the registry a session dispatches against.  The
`HashMap<String, (Tool, Arc<ToolHandler>)>` is modelled as an association list
with replace-on-insert; its (unspecified) iteration order is the list order.
The four non-tool handlers keep their source shapes minus the handle. -/
structure Server where
  name : String
  tools_and_handlers : List (String × Tool × ToolHandler)
  list_resources_handler : Option (Except SdkError (List Resource))
  read_resource_handler : Option (String → Except SdkError ReadResourceResult)
  list_prompts_handler : Option (Except SdkError ListPromptsResult)
  get_prompt_handler : Option (String → Option Json → Except SdkError GetPromptResult)

/-- Model of `Server::new`: a named server with nothing registered. -/
def Server.new (name : String) : Server :=
  ⟨name, [], none, none, none, none⟩

/-- Model of `Server::register_tool`: store the untyped handler under the
tool's name (replacing any previous entry). -/
def Server.register_tool (s : Server) (tool : Tool)
    (handler : Json → Except SdkError CallToolResult) : Server :=
  { s with tools_and_handlers :=
      (mapInsert tool.name (tool, .untyped handler) s.tools_and_handlers) }

/-- Model of `Server::register_tool_typed`: wrap the user handler in the
deserialising adapter.  `deArgs` stands for `serde_json::from_value::<Args>`
and `pretty` for `serde_json::to_string_pretty`, both of which the Rust
generic takes from its instantiation; on a deserialisation failure the adapter
returns `Ok` with a synthesised `isError` result and never calls the user
handler. -/
def Server.register_tool_typed {Args : Type} (s : Server) (tool : Tool)
    (deArgs : Json → Except String Args) (pretty : Json → String)
    (handler : Args → Except SdkError CallToolResult) : Server :=
  let toolName := tool.name
  let inputSchema := tool.input_schema
  { s with tools_and_handlers :=
      (mapInsert tool.name
        (tool, .typed (fun jsonArgs =>
          match deArgs jsonArgs with
          | .ok typedArgs => handler typedArgs
          | .error e =>
              .ok { content := [Content.text
                      ("Invalid arguments for tool '" ++ toolName ++ "': " ++ e
                        ++ ". Expected schema: " ++ pretty inputSchema)],
                    is_error := true }))
        s.tools_and_handlers) }

/-- Model of `Server::on_read_resource`. -/
def Server.on_read_resource (s : Server)
    (handler : String → Except SdkError ReadResourceResult) : Server :=
  { s with read_resource_handler := some handler }

/-- Model of `Server::on_list_resources`. -/
def Server.on_list_resources (s : Server)
    (handler : Except SdkError (List Resource)) : Server :=
  { s with list_resources_handler := some handler }

/-- Model of `Server::on_list_prompts`. -/
def Server.on_list_prompts (s : Server)
    (handler : Except SdkError ListPromptsResult) : Server :=
  { s with list_prompts_handler := some handler }

/-- Model of `Server::on_get_prompt`. -/
def Server.on_get_prompt (s : Server)
    (handler : String → Option Json → Except SdkError GetPromptResult) : Server :=
  { s with get_prompt_handler := some handler }

/-! ## Server session (`src/server/session.rs`) -/

/-- Crate version baked into `server_info` via `env!("CARGO_PKG_VERSION")`.
The manifest is not among the staged sources and no claim depends on the
value; any fixed string plays its role. -/
def CARGO_PKG_VERSION : String := "0.0.0"

/-- Outcome of one `dispatch_request` call: the `Result` the method returns
(`run` only logs an `Err`), the `is_initialized` flag after the call, and the
JSON messages sent on the connection (sends themselves always succeed, as on
the in-memory adapters of the crate's unit tests). -/
structure StepOut where
  result : Except SdkError Unit
  inited : Bool
  sent : List Json
deriving Repr

/-- Model of the generic helper `ServerSession::dispatch`: look up the handler,
deserialise the params, run the handler, and send exactly one reply — success
result, internal error (−32603) with the handler error's display, invalid
params (−32602), or method-not-found when no handler is registered.  `parseP`
stands for `serde_json::from_value::<P>` and `toJsonR` for the serialisation
of `R`, the generic's instantiations. -/
def dispatchGen {H P R : Type} (req : Request Json) (handlerOpt : Option H)
    (parseP : Json → Except String P) (toJsonR : R → Json)
    (f : H → P → Except SdkError R) : List Json :=
  match handlerOpt with
  | some handler =>
      match parseP req.params with
      | .ok params =>
          match f handler params with
          | .ok result => [responseToJson req.id (toJsonR result)]
          | .error err => [errorResponseToJson req.id INTERNAL_ERROR err.display]
      | .error e => [errorResponseToJson req.id INVALID_PARAMS e]
  | none =>
      [errorResponseToJson req.id METHOD_NOT_FOUND
        ("Method '" ++ req.method ++ "' has no registered handler")]

/-- Model of `ServerSession::handle_initialize`: on an `initialize` request,
compute the dynamic capabilities (`tools: {listChanged: false}` exactly when
the registry is non-empty, the field absent otherwise), reply with the
`InitializeResult`, and set the `is_initialized` flag; any other first message
is an error. -/
def handleInit (server : Server) (raw : Json) : StepOut :=
  match raw.get "method" with
  | some (.str "initialize") =>
      (match parseInitializeRequest raw with
       | .error e => ⟨.error (.serialization e), false, []⟩
       | .ok initReq =>
           let capabilities : ServerCapabilities :=
             if server.tools_and_handlers.isEmpty then ServerCapabilities.default
             else { tools := some { listChanged := some false } }
           let result : InitializeResult :=
             { protocol_version := LATEST_PROTOCOL_VERSION,
               server_info := { name := server.name, version := CARGO_PKG_VERSION },
               capabilities := capabilities }
           ⟨.ok (), true, [responseToJson initReq.id result.toJson]⟩)
  | _ => ⟨.error (.other "First message from client was not an 'initialize' request."), false, []⟩

/-- Model of the post-notification-check body of
`ServerSession::dispatch_request`: handshake gate, then routing by method.
Failures raised through `?` (a `params` value that does not deserialise on the
`tools/call` path, a failing tool handler, an unparsable request) surface in
`result` with nothing sent. -/
def dispatchCore (server : Server) (inited : Bool) (raw : Json) : StepOut :=
  if ¬ inited then handleInit server raw
  else
    match parseRequestJson raw with
    | .error e => ⟨.error (.serialization e), inited, []⟩
    | .ok req =>
        match req.method with
        | "tools/list" =>
            let tools : List Tool := server.tools_and_handlers.map (fun x => x.2.1)
            ⟨.ok (), inited,
              [responseToJson req.id (.obj [("tools", .arr (tools.map Tool.toJson))])]⟩
        | "tools/call" =>
            (match parseCallToolParams req.params with
             | .error e => ⟨.error (.serialization e), inited, []⟩
             | .ok params =>
                 match (server.tools_and_handlers.lookup params.name : Option (Tool × ToolHandler)) with
                 | some (_toolMeta, handler) =>
                     (match handler.call params.arguments with
                      | .ok result =>
                          ⟨.ok (), inited, [responseToJson req.id result.toJson]⟩
                      | .error e => ⟨.error e, inited, []⟩)
                 | none =>
                     ⟨.ok (), inited,
                       [errorResponseToJson req.id METHOD_NOT_FOUND
                         ("Tool '" ++ params.name ++ "' not found")]⟩)
        | "resources/list" =>
            ⟨.ok (), inited,
              dispatchGen req server.list_resources_handler parseListResourcesParams
                (fun rs => .arr (rs.map Resource.toJson)) (fun h _ => h)⟩
        | "resources/read" =>
            ⟨.ok (), inited,
              dispatchGen req server.read_resource_handler parseReadResourceParams
                ReadResourceResult.toJson (fun h p => h p.uri)⟩
        | "prompts/list" =>
            ⟨.ok (), inited,
              dispatchGen req server.list_prompts_handler parseListPromptsParams
                ListPromptsResult.toJson (fun h _ => h)⟩
        | "prompts/get" =>
            ⟨.ok (), inited,
              dispatchGen req server.get_prompt_handler parseGetPromptParams
                GetPromptResult.toJson (fun h p => h p.name p.arguments)⟩
        | "initialize" =>
            ⟨.error (.other "Client sent 'initialize' request twice."), inited, []⟩
        | unhandled =>
            ⟨.ok (), inited,
              [errorResponseToJson req.id METHOD_NOT_FOUND
                ("Method '" ++ unhandled ++ "' not found")]⟩

/-- Model of `ServerSession::dispatch_request`: the leading notification check
(a message with a `method` but no `id` that parses as the post-handshake
`notifications/initialized` signal is consumed; any other such message is
logged and falls through), then `dispatchCore`. -/
def dispatchRequest (server : Server) (inited : Bool) (raw : Json) : StepOut :=
  if (raw.get "id").isNone && (raw.get "method").isSome then
    match parseNotificationJson raw with
    | .ok notif =>
        if notif.method = "notifications/initialized" then ⟨.ok (), inited, []⟩
        else dispatchCore server inited raw
    | .error _ => dispatchCore server inited raw
  else dispatchCore server inited raw

/-- Model of the inbound side of `ServerSession::run` over a finite inbound
message sequence: each message is dispatched, a dispatch `Err` is only logged,
and the loop goes on until the transport closes (end of the list).  Handlers
in this model queue no notifications, so the shutdown drain sends nothing. -/
def runLoop (server : Server) : Bool → List Json → List Json
  | _, [] => []
  | inited, raw :: rest =>
      let out := dispatchRequest server inited raw
      out.sent ++ runLoop server out.inited rest

/-! ## Client session (`src/client/session.rs`, `src/client/client.rs`) -/

/-- Result delivered through a pending-request slot (`ResponseResult`,
a `Result<Value, anyhow::Error>`; the error is its message string). -/
def ResponseResult : Type := Except String Json

/-- Model of `HashMap::remove` on the pending map: the removed slot (if any)
and the map without it.  `σ` is the slot type (the caller's one-shot sender),
kept abstract. -/
def mapRemove {σ : Type} (k : RequestId) :
    List (RequestId × σ) → Option σ × List (RequestId × σ)
  | [] => (none, [])
  | (k', v) :: rest =>
      if k' = k then (some v, rest)
      else
        let r := mapRemove k rest
        (r.1, (k', v) :: r.2)

/-- Model of `ClientSession::handle_response`: parse the `id` slot of the raw
message (doing nothing if it is not a `RequestId`), remove the pending slot
for it (doing nothing on a stray), then deliver the `result` value, a peer
error, or a deserialisation failure into the removed slot. -/
def handleResponse {σ : Type} (raw : Json) (pending : List (RequestId × σ)) :
    List (RequestId × σ) × Option (σ × ResponseResult) :=
  match RequestId.fromJson (raw.index "id") with
  | .error _ => (pending, none)
  | .ok id =>
      match mapRemove id pending with
      | (none, _) => (pending, none)
      | (some sender, pending') =>
          match parseJsonRpcResponse raw with
          | .ok (.inl success) => (pending', some (sender, .ok success.2))
          | .ok (.inr err) =>
              (pending', some (sender,
                .error ("Server returned an error: code=" ++ toString err.2.code
                  ++ ", message='" ++ err.2.message ++ "'")))
          | .error e =>
              (pending', some (sender, .error ("Failed to deserialize response: " ++ e)))

/-- Model of the inbound arm of `ClientSession::run`: a message with an `id`
goes to `handle_response`; one with a `method` but no `id` is handed to a
notification handler on a detached task; anything else is ignored.  The arm
performs no transport send, so the third component (messages sent) is `[]`. -/
def clientInboundStep {σ : Type} (raw : Json) (pending : List (RequestId × σ)) :
    List (RequestId × σ) × Option (σ × ResponseResult) × List Json :=
  if (raw.get "id").isSome then
    let r := handleResponse raw pending
    (r.1, r.2, [])
  else (pending, none, [])

/-- Model of i64 two's-complement wrap-around (`AtomicI64::fetch_add` wraps). -/
def wrapI64 (z : Int) : Int := (z + 2 ^ 63) % 2 ^ 64 - 2 ^ 63

/-- Model of the `next_request_id` counter: its value just before the `n`-th
post-handshake request.  `Client::new` initialises the atomic to 1 and each
`new_request_id` call is a wrapping `fetch_add(1)` returning the old value, so
the `n`-th request carries `RequestId::Num (requestCounter n)`. -/
def requestCounter : Nat → Int
  | 0 => 1
  | n + 1 => wrapI64 (requestCounter n + 1)

/-- Identifier of the `n`-th post-handshake client request
(`Client::new_request_id`). -/
def newRequestIdAt (n : Nat) : RequestId := .num (requestCounter n)

/-- Identifier the handshake uses: `Client::new` sends `initialize` through
`send_request_with_id(RequestId::Num(0), ..)`. -/
def initRequestId : RequestId := .num 0

/-- Wire form of a `tools/list` request as `Client::list_tools` builds it
(`ListToolsParams {}` serialises to the empty object). -/
def toolsListRequestJson (id : RequestId) : Json :=
  .obj [("jsonrpc", .str "2.0"), ("id", id.toJson),
        ("method", .str "tools/list"), ("params", .obj [])]

/-- Model of one `Client::list_tools` call against a connected, initialised
server session: the session sends the request, `ServerSession` dispatches it,
`ClientSession::handle_response` classifies the single reply and delivers its
`result` value, and `send_request` deserialises that value into `Vec<Tool>`. -/
def clientListTools (server : Server) (id : RequestId) : Except SdkError (List Tool) :=
  match (dispatchRequest server true (toolsListRequestJson id)).sent with
  | [reply] =>
      (match parseJsonRpcResponse reply with
       | .ok (.inl success) =>
           (match parseToolList success.2 with
            | .ok ts => .ok ts
            | .error e => .error (.serialization e))
       | .ok (.inr err) =>
           .error (.other ("Server returned an error: code=" ++ toString err.2.code
             ++ ", message='" ++ err.2.message ++ "'"))
       | .error e => .error (.other ("Failed to deserialize response: " ++ e)))
  | _ => .error .channelClosed

/-- Model of `ClientSessionGroup::list_tools_all`: fan `list_tools` out over
every session, extend the accumulator with each successful tool list, and
only log failures (the call itself returns `Ok`).  Each group member is given
by its server's registry; `id` 1 is the first post-handshake identifier. -/
def listToolsAll (servers : List Server) : List Tool :=
  servers.foldl
    (fun acc s =>
      match clientListTools s (.num 1) with
      | .ok ts => acc ++ ts
      | .error _ => acc) []

/-! ## Schema derivation (`mcp_sdk_macros/src/lib.rs`) -/

/-- Model of the Rust field types the `ToolArguments` derive recognises
syntactically (`type_to_schema`): strings, any integer width, floats, `bool`,
`Vec<T>`, `Option<T>`, or another record type named by its path. -/
inductive RustType where
  | string
  | int
  | float
  | bool
  | vec (t : RustType)
  | opt (t : RustType)
  | named (path : String)
deriving Repr, DecidableEq

/-- Model of `is_option`: the field type is syntactically `Option<..>`. -/
def isOptionTy : RustType → Bool
  | .opt _ => true
  | _ => false

/-- Model of `type_to_schema`.  `env path` stands for the expansion's call to
`path::mcp_input_schema()` for another record type. -/
def typeToSchema (env : String → Json) : RustType → Json
  | .opt t => typeToSchema env t
  | .string => .obj [("type", .str "string")]
  | .int => .obj [("type", .str "integer")]
  | .float => .obj [("type", .str "number")]
  | .bool => .obj [("type", .str "boolean")]
  | .vec t => .obj [("type", .str "array"), ("items", typeToSchema env t)]
  | .named p => env p

/-- Model of the aggregated `#[tool_arg(..)]` attributes of one field
(`FieldArgs`). -/
structure FieldArgs where
  desc : Option String
  rename : Option String
  skip : Bool
  required : Option Bool
deriving Repr, DecidableEq

/-- Default `FieldArgs`: no overrides. -/
def FieldArgs.default : FieldArgs := ⟨none, none, false, none⟩

/-- Model of one named struct field as the derive macro sees it. -/
structure StructField where
  name : String
  ty : RustType
  args : FieldArgs
deriving Repr, DecidableEq

/-- Renamed JSON name of a field (`rename` override, else the Rust name). -/
def effectiveName (f : StructField) : String := f.args.rename.getD f.name

/-- Property schema of one field: `type_to_schema`, with the `description`
override inserted into the object when present. -/
def propertySchema (env : String → Json) (f : StructField) : Json :=
  match f.args.desc with
  | some d =>
      (match typeToSchema env f.ty with
       | .obj ms => .obj (mapInsert "description" (.str d) ms)
       | j => j)
  | none => typeToSchema env f.ty

/-- Required flag of one field: the explicit `required` override, defaulting
to "not an `Option` type" (`field_attrs.required.unwrap_or(!is_option(ty))`). -/
def isFieldRequired (f : StructField) : Bool :=
  f.args.required.getD (! isOptionTy f.ty)

/-- One step of the derive's field loop: a `skip` field contributes nothing;
otherwise its renamed name/schema is inserted into the properties map and, when
required, its renamed name is pushed onto the required list. -/
def deriveStep (env : String → Json) (acc : List (String × Json) × List String)
    (f : StructField) : List (String × Json) × List String :=
  if f.args.skip then acc
  else
    (mapInsert (effectiveName f) (propertySchema env f) acc.1,
     if isFieldRequired f then acc.2 ++ [effectiveName f] else acc.2)

/-- Model of the schema value `tool_arguments_derive` generates for
`mcp_input_schema()`: `type:"object"`, the accumulated `properties`, and —
only when non-empty — the `required` array. -/
def toolArgumentsDerive (env : String → Json) (fields : List StructField) : Json :=
  let acc := fields.foldl (deriveStep env) ([], [])
  let base := [("type", Json.str "object"), ("properties", Json.obj acc.1)]
  if acc.2.isEmpty then .obj base
  else .obj (base ++ [("required", .arr (acc.2.map Json.str))])

/-- Names listed in a derived schema's `required` array. -/
def schemaRequiredNames (s : Json) : List String :=
  match s.get "required" with
  | some (.arr xs) => xs.filterMap (fun j => match j with | .str n => some n | _ => none)
  | _ => []

/-- Keys of a derived schema's `properties` object. -/
def schemaPropertyNames (s : Json) : List String :=
  match s.get "properties" with
  | some (.obj kvs) => kvs.map Prod.fst
  | _ => []

/-! ## Concrete fixtures (wire messages and registries used by the closed
theorems below) -/

/-- Wire form of a JSON-RPC request with an integer id. -/
def reqJson (id : Int) (method : String) (params : Json) : Json :=
  .obj [("jsonrpc", .str "2.0"), ("id", .num id), ("method", .str method),
        ("params", params)]

/-- Wire form of a well-formed `initialize` request (id 0). -/
def initReqJson : Json :=
  reqJson 0 "initialize"
    (.obj [("protocolVersion", .str "2024-11-05"),
           ("capabilities", .obj []),
           ("clientInfo", .obj [("name", .str "test-client"), ("version", .str "0")])])

/-- Wire form of a `tools/call` request. -/
def callReqJson (id : Int) (name : String) (args : Json) : Json :=
  reqJson id "tools/call" (.obj [("name", .str name), ("arguments", args)])

/-- Tool metadata with only the name set (the crate's `Tool::default()` plus a
name, as the session-group test builds it). -/
def toolNamed (n : String) : Tool := { Tool.default with name := n }

/-- Server of the session-group scenario: one registered tool named `a` whose
handler returns the default empty result. -/
def srvA : Server :=
  (Server.new "mock-server").register_tool (toolNamed "a")
    (fun _ => .ok CallToolResult.default)

/-- Server of the session-group scenario: one registered tool named `b`. -/
def srvB : Server :=
  (Server.new "mock-server").register_tool (toolNamed "b")
    (fun _ => .ok CallToolResult.default)

/-- Server with one tool `t` whose handler always fails with `Other "boom"`. -/
def srvFailingTool : Server :=
  (Server.new "fail").register_tool (toolNamed "t") (fun _ => .error (.other "boom"))

/-- Server with every non-tool handler registered and failing, used to witness
the −32603 replies of the generic dispatch path. -/
def srvHandlersFail : Server :=
  Server.on_get_prompt
    (Server.on_list_prompts
      (Server.on_read_resource
        (Server.on_list_resources (Server.new "w") (.error (.other "lr")))
        (fun _ => .error (.other "rr")))
      (.error (.other "lp")))
    (fun _ _ => .error (.other "gp"))

/-- Server with one typed tool `add` whose argument deserialiser (standing for
`serde_json::from_value::<AddArgs>`) always fails with `expected i32`. -/
def srvTypedTool : Server :=
  (Server.new "typed").register_tool_typed
    { Tool.default with name := "add", input_schema := .obj [("type", .str "object")] }
    (fun (_ : Json) => (Except.error "expected i32" : Except String Nat))
    (fun _ => "PRETTY-SCHEMA")
    (fun _ => .ok CallToolResult.default)

/-- Sample derive input: field `a: String` with no overrides. -/
def fieldA : StructField := ⟨"a", .string, FieldArgs.default⟩

/-- Sample derive input: field `b: Option<String>` renamed `bee` with an
explicit `required = true` override. -/
def fieldB : StructField := ⟨"b", .opt .string, ⟨none, some "bee", false, some true⟩⟩

/-- Sample derive input: field `x: bool` with `#[tool_arg(skip)]`. -/
def fieldX : StructField := ⟨"x", .bool, ⟨none, none, true, none⟩⟩

/-- Sample derive input: field `o: Option<i64>` with no overrides. -/
def fieldO : StructField := ⟨"o", .opt .int, FieldArgs.default⟩

/-- Sample struct for the schema-derivation witness. -/
def sampleFields : List StructField := [fieldA, fieldB, fieldX, fieldO]

/-! ## Helper lemmas -/

/-- A raw message that deserialises as a `Request` has an `id` member, so the
notification pre-check of `dispatch_request` cannot divert it. -/
theorem get_id_isSome_of_parse (raw : Json) (req : Request Json)
    (h : parseRequestJson raw = .ok req) : (raw.get "id").isSome := by
  cases raw with
  | obj ms =>
      cases hj : (Json.obj ms).get "jsonrpc" with
      | none =>
          simp [parseRequestJson, requireField, hj, Bind.bind, Except.bind] at h
      | some vj =>
          cases hid : (Json.obj ms).get "id" with
          | none =>
              simp [parseRequestJson, requireField, hj, hid, Bind.bind, Except.bind] at h
              split at h <;> simp_all
          | some v => simp
  | null => simp [parseRequestJson] at h
  | bool b => simp [parseRequestJson] at h
  | num n => simp [parseRequestJson] at h
  | str s => simp [parseRequestJson] at h
  | arr es => simp [parseRequestJson] at h

/-- On a message that deserialises as a `Request`, `dispatch_request` falls
through its notification pre-check into the routing body. -/
theorem dispatchRequest_eq_core (server : Server) (inited : Bool) (raw : Json)
    (req : Request Json) (h : parseRequestJson raw = .ok req) :
    dispatchRequest server inited raw = dispatchCore server inited raw := by
  have hid := get_id_isSome_of_parse raw req h
  unfold dispatchRequest
  cases hg : raw.get "id" with
  | none => rw [hg] at hid; simp at hid
  | some v => simp [hg]

/-- Inserting under a key makes it found by lookup. -/
theorem lookup_mapInsert_self {α : Type} (k : String) (v : α) (m : List (String × α)) :
    (mapInsert k v m).lookup k = some v := by
  induction m with
  | nil => simp [mapInsert, List.lookup]
  | cons kv rest ih =>
      obtain ⟨k', v'⟩ := kv
      by_cases hk : k' = k
      · simp [mapInsert, hk, List.lookup]
      · have hkk : (k == k') = false := by simp [Ne.symm hk]
        simp [mapInsert, hk, List.lookup, hkk, ih]

/-- Keys after a `mapInsert`: the inserted key joins the key set. -/
theorem mem_keys_mapInsert {α : Type} (k' k : String) (v : α) (m : List (String × α)) :
    k' ∈ (mapInsert k v m).map Prod.fst ↔ k' = k ∨ k' ∈ m.map Prod.fst := by
  induction m with
  | nil => simp [mapInsert]
  | cons kv rest ih =>
      obtain ⟨k₀, v₀⟩ := kv
      by_cases hk : k₀ = k
      · subst hk
        simp [mapInsert]
        try tauto
      · simp [mapInsert, hk, ih]
        try tauto

/-- Removing an absent key from the pending map is the identity. -/
theorem mapRemove_not_mem {σ : Type} (id : RequestId) (pending : List (RequestId × σ))
    (h : ∀ p ∈ pending, p.1 ≠ id) : mapRemove id pending = (none, pending) := by
  induction pending with
  | nil => rfl
  | cons kv rest ih =>
      obtain ⟨k, v⟩ := kv
      have hk : k ≠ id := h (k, v) (by simp)
      have hrest : ∀ p ∈ rest, p.1 ≠ id := fun p hp => h p (by simp [hp])
      simp [mapRemove, hk, ih hrest]

/-- Values within i64 range survive the wrap. -/
theorem wrapI64_eq_self (z : Int) (h1 : -(2 ^ 63) ≤ z) (h2 : z < 2 ^ 63) :
    wrapI64 z = z := by
  unfold wrapI64
  have hlo : 0 ≤ z + 2 ^ 63 := by omega
  have hhi : z + 2 ^ 63 < 2 ^ 64 := by omega
  rw [Int.emod_eq_of_lt hlo hhi]
  omega

/-- Below the overflow point the request counter counts 1, 2, 3, ... -/
theorem requestCounter_eq (n : Nat) (h : (n : Int) ≤ 2 ^ 63 - 2) :
    requestCounter n = 1 + n := by
  induction n with
  | zero => rfl
  | succ m ih =>
      have hm : (m : Int) ≤ 2 ^ 63 - 2 := by push_cast at h ⊢; omega
      rw [requestCounter, ih hm]
      rw [wrapI64_eq_self _ (by push_cast; omega) (by push_cast at h ⊢; omega)]
      push_cast
      ring

/-- Splitting the literal after a tool name into the claim's quoted fragment. -/
theorem append_not_found (x : String) :
    x ++ "' not found" = (x ++ "' ") ++ "not found" := by
  rw [String.append_assoc]
  congr 1

/-- Splitting the typed-adapter message after the quoted tool name. -/
theorem append_quote_colon (x : String) :
    x ++ "': " = (x ++ "'") ++ ": " := by
  rw [String.append_assoc]
  congr 1

/-! ## Claims -/

/-- C1, counterexample: the claim includes `tools/call` among the routes whose
handler failures are answered with a −32603 error response, but a registered
tool handler failing with `Other "boom"` makes `dispatch_request` propagate
the error through `?`: the run loop only logs it, and nothing at all is sent
for request id 7 — no error response carries the handler's message. -/
theorem c1_counterexample_tools_call_failure :
    dispatchRequest srvFailingTool true (callReqJson 7 "t" (.obj []))
      = ⟨.error (.other "boom"), true, []⟩ := by rfl

/-- C1, amended: for the four `dispatch`-routed methods (`resources/list`,
`resources/read`, `prompts/list`, `prompts/get`), a failing registered handler
is answered with exactly one error response carrying code −32603 and the
handler error's display string, and a `params` value that fails to deserialise
is answered with exactly one error response carrying code −32602 — both
echoing the request's id.  For `tools/call` the claim fails: both a handler
failure and a params-deserialisation failure propagate out of
`dispatch_request` (where the run loop only logs them) and no reply is sent
for that request id. -/
theorem c1_failure_replies_amended (server : Server) (raw : Json) (req : Request Json)
    (hreq : parseRequestJson raw = .ok req) :
    (∀ h err, req.method = "resources/list" → server.list_resources_handler = some h →
      parseListResourcesParams req.params = .ok ⟨⟩ → h = .error err →
      (dispatchRequest server true raw).sent
        = [errorResponseToJson req.id INTERNAL_ERROR err.display]) ∧
    (∀ h e, req.method = "resources/list" → server.list_resources_handler = some h →
      parseListResourcesParams req.params = .error e →
      (dispatchRequest server true raw).sent
        = [errorResponseToJson req.id INVALID_PARAMS e]) ∧
    (∀ h p err, req.method = "resources/read" → server.read_resource_handler = some h →
      parseReadResourceParams req.params = .ok p → h p.uri = .error err →
      (dispatchRequest server true raw).sent
        = [errorResponseToJson req.id INTERNAL_ERROR err.display]) ∧
    (∀ h e, req.method = "resources/read" → server.read_resource_handler = some h →
      parseReadResourceParams req.params = .error e →
      (dispatchRequest server true raw).sent
        = [errorResponseToJson req.id INVALID_PARAMS e]) ∧
    (∀ h err, req.method = "prompts/list" → server.list_prompts_handler = some h →
      parseListPromptsParams req.params = .ok ⟨⟩ → h = .error err →
      (dispatchRequest server true raw).sent
        = [errorResponseToJson req.id INTERNAL_ERROR err.display]) ∧
    (∀ h e, req.method = "prompts/list" → server.list_prompts_handler = some h →
      parseListPromptsParams req.params = .error e →
      (dispatchRequest server true raw).sent
        = [errorResponseToJson req.id INVALID_PARAMS e]) ∧
    (∀ h p err, req.method = "prompts/get" → server.get_prompt_handler = some h →
      parseGetPromptParams req.params = .ok p → h p.name p.arguments = .error err →
      (dispatchRequest server true raw).sent
        = [errorResponseToJson req.id INTERNAL_ERROR err.display]) ∧
    (∀ h e, req.method = "prompts/get" → server.get_prompt_handler = some h →
      parseGetPromptParams req.params = .error e →
      (dispatchRequest server true raw).sent
        = [errorResponseToJson req.id INVALID_PARAMS e]) ∧
    (∀ p tm handler err, req.method = "tools/call" →
      parseCallToolParams req.params = .ok p →
      server.tools_and_handlers.lookup p.name = some (tm, handler) →
      handler.call p.arguments = .error err →
      dispatchRequest server true raw = ⟨.error err, true, []⟩) ∧
    (∀ e, req.method = "tools/call" → parseCallToolParams req.params = .error e →
      dispatchRequest server true raw = ⟨.error (.serialization e), true, []⟩) := by
  refine ⟨?_, ?_, ?_, ?_, ?_, ?_, ?_, ?_, ?_, ?_⟩
  · intro h err hm hh hpp he
    rw [dispatchRequest_eq_core server true raw req hreq]
    obtain ⟨jr, rid, mth, prms⟩ := req
    simp only at hm hpp
    subst hm
    simp [dispatchCore, hreq, dispatchGen, hh, hpp, he]
  · intro h e hm hh hpe
    rw [dispatchRequest_eq_core server true raw req hreq]
    obtain ⟨jr, rid, mth, prms⟩ := req
    simp only at hm hpe
    subst hm
    simp [dispatchCore, hreq, dispatchGen, hh, hpe]
  · intro h p err hm hh hpp he
    rw [dispatchRequest_eq_core server true raw req hreq]
    obtain ⟨jr, rid, mth, prms⟩ := req
    simp only at hm hpp
    subst hm
    simp [dispatchCore, hreq, dispatchGen, hh, hpp, he]
  · intro h e hm hh hpe
    rw [dispatchRequest_eq_core server true raw req hreq]
    obtain ⟨jr, rid, mth, prms⟩ := req
    simp only at hm hpe
    subst hm
    simp [dispatchCore, hreq, dispatchGen, hh, hpe]
  · intro h err hm hh hpp he
    rw [dispatchRequest_eq_core server true raw req hreq]
    obtain ⟨jr, rid, mth, prms⟩ := req
    simp only at hm hpp
    subst hm
    simp [dispatchCore, hreq, dispatchGen, hh, hpp, he]
  · intro h e hm hh hpe
    rw [dispatchRequest_eq_core server true raw req hreq]
    obtain ⟨jr, rid, mth, prms⟩ := req
    simp only at hm hpe
    subst hm
    simp [dispatchCore, hreq, dispatchGen, hh, hpe]
  · intro h p err hm hh hpp he
    rw [dispatchRequest_eq_core server true raw req hreq]
    obtain ⟨jr, rid, mth, prms⟩ := req
    simp only at hm hpp
    subst hm
    simp [dispatchCore, hreq, dispatchGen, hh, hpp, he]
  · intro h e hm hh hpe
    rw [dispatchRequest_eq_core server true raw req hreq]
    obtain ⟨jr, rid, mth, prms⟩ := req
    simp only at hm hpe
    subst hm
    simp [dispatchCore, hreq, dispatchGen, hh, hpe]
  · intro p tm handler err hm hpp hlook hcall
    rw [dispatchRequest_eq_core server true raw req hreq]
    obtain ⟨jr, rid, mth, prms⟩ := req
    simp only at hm hpp
    subst hm
    simp [dispatchCore, hreq, hpp, hlook, hcall]
  · intro e hm hpe
    rw [dispatchRequest_eq_core server true raw req hreq]
    obtain ⟨jr, rid, mth, prms⟩ := req
    simp only at hm hpe
    subst hm
    simp [dispatchCore, hreq, hpe]

/-- Witness for C1 (amended), exercising every conjunct against
`srvHandlersFail` (all four handlers registered and failing) and
`srvFailingTool`. -/
theorem c1_failure_replies_amended_witness :
    ((dispatchRequest srvHandlersFail true (reqJson 1 "resources/list" (.obj []))).sent
      = [errorResponseToJson (.num 1) INTERNAL_ERROR "An internal error occurred: lr"]) ∧
    ((dispatchRequest srvHandlersFail true (reqJson 2 "resources/list" .null)).sent
      = [errorResponseToJson (.num 2) INVALID_PARAMS "invalid type: expected a map"]) ∧
    ((dispatchRequest srvHandlersFail true
        (reqJson 3 "resources/read" (.obj [("uri", .str "u")]))).sent
      = [errorResponseToJson (.num 3) INTERNAL_ERROR "An internal error occurred: rr"]) ∧
    ((dispatchRequest srvHandlersFail true (reqJson 4 "resources/read" (.obj []))).sent
      = [errorResponseToJson (.num 4) INVALID_PARAMS "missing field uri"]) ∧
    ((dispatchRequest srvHandlersFail true (reqJson 5 "prompts/list" (.obj []))).sent
      = [errorResponseToJson (.num 5) INTERNAL_ERROR "An internal error occurred: lp"]) ∧
    ((dispatchRequest srvHandlersFail true (reqJson 6 "prompts/list" .null)).sent
      = [errorResponseToJson (.num 6) INVALID_PARAMS "invalid type: expected a map"]) ∧
    ((dispatchRequest srvHandlersFail true
        (reqJson 7 "prompts/get" (.obj [("name", .str "p")]))).sent
      = [errorResponseToJson (.num 7) INTERNAL_ERROR "An internal error occurred: gp"]) ∧
    ((dispatchRequest srvHandlersFail true (reqJson 8 "prompts/get" (.obj []))).sent
      = [errorResponseToJson (.num 8) INVALID_PARAMS "missing field name"]) ∧
    (dispatchRequest srvFailingTool true (callReqJson 9 "t" (.obj []))
      = ⟨.error (.other "boom"), true, []⟩) ∧
    (dispatchRequest srvFailingTool true (reqJson 10 "tools/call" (.obj []))
      = ⟨.error (.serialization "missing field name"), true, []⟩) := by
  refine ⟨?_, ?_, ?_, ?_, ?_, ?_, ?_, ?_, ?_, ?_⟩
  · exact (c1_failure_replies_amended srvHandlersFail (reqJson 1 "resources/list" (.obj []))
      ⟨"2.0", .num 1, "resources/list", .obj []⟩ (by rfl)).1 _ (.other "lr") rfl rfl rfl rfl
  · exact (c1_failure_replies_amended srvHandlersFail (reqJson 2 "resources/list" .null)
      ⟨"2.0", .num 2, "resources/list", .null⟩ (by rfl)).2.1 _ _ rfl rfl rfl
  · exact (c1_failure_replies_amended srvHandlersFail
      (reqJson 3 "resources/read" (.obj [("uri", .str "u")]))
      ⟨"2.0", .num 3, "resources/read", .obj [("uri", .str "u")]⟩ (by rfl)).2.2.1
      _ ⟨"u"⟩ (.other "rr") rfl rfl rfl rfl
  · exact (c1_failure_replies_amended srvHandlersFail (reqJson 4 "resources/read" (.obj []))
      ⟨"2.0", .num 4, "resources/read", .obj []⟩ (by rfl)).2.2.2.1 _ _ rfl rfl rfl
  · exact (c1_failure_replies_amended srvHandlersFail (reqJson 5 "prompts/list" (.obj []))
      ⟨"2.0", .num 5, "prompts/list", .obj []⟩ (by rfl)).2.2.2.2.1 _ (.other "lp") rfl rfl rfl rfl
  · exact (c1_failure_replies_amended srvHandlersFail (reqJson 6 "prompts/list" .null)
      ⟨"2.0", .num 6, "prompts/list", .null⟩ (by rfl)).2.2.2.2.2.1 _ _ rfl rfl rfl
  · exact (c1_failure_replies_amended srvHandlersFail
      (reqJson 7 "prompts/get" (.obj [("name", .str "p")]))
      ⟨"2.0", .num 7, "prompts/get", .obj [("name", .str "p")]⟩ (by rfl)).2.2.2.2.2.2.1
      _ ⟨"p", none⟩ (.other "gp") rfl rfl rfl rfl
  · exact (c1_failure_replies_amended srvHandlersFail (reqJson 8 "prompts/get" (.obj []))
      ⟨"2.0", .num 8, "prompts/get", .obj []⟩ (by rfl)).2.2.2.2.2.2.2.1 _ _ rfl rfl rfl
  · exact (c1_failure_replies_amended srvFailingTool (callReqJson 9 "t" (.obj []))
      ⟨"2.0", .num 9, "tools/call",
        .obj [("name", .str "t"), ("arguments", .obj [])]⟩ (by rfl)).2.2.2.2.2.2.2.2.1
      ⟨"t", .obj []⟩ _ _ (.other "boom") rfl rfl rfl rfl
  · exact (c1_failure_replies_amended srvFailingTool (reqJson 10 "tools/call" (.obj []))
      ⟨"2.0", .num 10, "tools/call", .obj []⟩ (by rfl)).2.2.2.2.2.2.2.2.2
      "missing field name" rfl rfl

/-- C7: the client's `initialize` request carries the integer identifier 0,
and every later client-originated request draws its integer identifier from
the strictly increasing sequence 1, 2, 3, ... of the `fetch_add` counter: as
long as the `AtomicI64` has not overflowed (fewer than 2^63 − 1 requests),
identifiers of distinct requests are distinct, strictly increasing in send
order, and never collide with the handshake's 0. -/
theorem c7_request_ids_strictly_increasing (m n : Nat) (hmn : m < n)
    (hn : (n : Int) ≤ 2 ^ 63 - 2) :
    initRequestId = RequestId.num 0 ∧
    newRequestIdAt 0 = RequestId.num 1 ∧
    newRequestIdAt m = RequestId.num (1 + m) ∧
    newRequestIdAt n = RequestId.num (1 + n) ∧
    (1 + (m : Int)) < (1 + (n : Int)) ∧
    newRequestIdAt m ≠ newRequestIdAt n ∧
    newRequestIdAt m ≠ initRequestId ∧
    newRequestIdAt n ≠ initRequestId := by
  have hm : (m : Int) ≤ 2 ^ 63 - 2 := by
    have : (m : Int) < n := by exact_mod_cast hmn
    omega
  have em : newRequestIdAt m = RequestId.num (1 + m) := by
    unfold newRequestIdAt; rw [requestCounter_eq m hm]
  have en : newRequestIdAt n = RequestId.num (1 + n) := by
    unfold newRequestIdAt; rw [requestCounter_eq n hn]
  have hlt : (1 + (m : Int)) < (1 + (n : Int)) := by
    have : (m : Int) < n := by exact_mod_cast hmn
    omega
  refine ⟨rfl, by unfold newRequestIdAt; rfl, em, en, hlt, ?_, ?_, ?_⟩
  · rw [em, en]
    intro hcontra
    have : (1 + (m : Int)) = (1 + (n : Int)) := by injection hcontra
    omega
  · rw [em]
    intro hcontra
    have : (1 + (m : Int)) = 0 := by injection hcontra
    omega
  · rw [en]
    intro hcontra
    have : (1 + (n : Int)) = 0 := by injection hcontra
    omega

/-- Witness for C7 at the concrete send positions 1 and 2. -/
theorem c7_request_ids_strictly_increasing_witness :
    initRequestId = RequestId.num 0 ∧
    newRequestIdAt 0 = RequestId.num 1 ∧
    newRequestIdAt 1 = RequestId.num 2 ∧
    newRequestIdAt 2 = RequestId.num 3 ∧
    (2 : Int) < 3 ∧
    newRequestIdAt 1 ≠ newRequestIdAt 2 ∧
    newRequestIdAt 1 ≠ initRequestId ∧
    newRequestIdAt 2 ≠ initRequestId :=
  c7_request_ids_strictly_increasing 1 2 (by decide) (by decide)

/-- C9: a stray response — an inbound message whose parsed identifier has no
entry in the pending-request map — is dropped silently by the client session:
`handle_response` delivers nothing into any slot, the pending map is returned
unchanged, and the inbound arm of the loop sends nothing on the transport (no
other session state is touched on this path). -/
theorem c9_stray_response_dropped {σ : Type} (raw : Json)
    (pending : List (RequestId × σ)) (id : RequestId)
    (hid : RequestId.fromJson (raw.index "id") = .ok id)
    (habs : ∀ p ∈ pending, p.1 ≠ id) :
    handleResponse raw pending = (pending, none) ∧
    clientInboundStep raw pending = (pending, none, []) := by
  have hmain : handleResponse raw pending = (pending, none) := by
    unfold handleResponse
    rw [hid]
    simp [mapRemove_not_mem id pending habs]
  refine ⟨hmain, ?_⟩
  have hsome : (raw.get "id").isSome := by
    cases hg : raw.get "id" with
    | none =>
        exfalso
        unfold Json.index at hid
        rw [hg] at hid
        simp [RequestId.fromJson] at hid
    | some v => simp
  unfold clientInboundStep
  rw [hmain]
  simp [hsome]

/-- Witness for C9: a success response with id 5 against a pending map holding
only id 1. -/
theorem c9_stray_response_dropped_witness :
    handleResponse (σ := Nat)
      (.obj [("jsonrpc", .str "2.0"), ("id", .num 5), ("result", .obj [])])
      [(RequestId.num 1, 0)]
      = ([(RequestId.num 1, 0)], none) ∧
    clientInboundStep (σ := Nat)
      (.obj [("jsonrpc", .str "2.0"), ("id", .num 5), ("result", .obj [])])
      [(RequestId.num 1, 0)]
      = ([(RequestId.num 1, 0)], none, []) :=
  c9_stray_response_dropped
    (.obj [("jsonrpc", .str "2.0"), ("id", .num 5), ("result", .obj [])])
    [(RequestId.num 1, 0)] (RequestId.num 5) (by rfl) (by decide)

/-- C10: deserialising a `CallToolResult` from a JSON object with no `isError`
member succeeds — `#[serde(default)]` fills `is_error` with `false` — so a
`tools/call` reply carrying only a `content` array is a non-error result. -/
theorem c10_call_tool_result_default_is_error (j : Json) (ms : List (String × Json))
    (cs : List Content)
    (hobj : j = .obj ms)
    (habs : j.get "isError" = none)
    (hcontent : (requireField j "content" >>= parseContentList) = .ok cs) :
    CallToolResult.fromJson j = .ok ⟨cs, false⟩ := by
  subst hobj
  unfold CallToolResult.fromJson
  rw [hcontent, habs]
  rfl

/-- Witness for C10: a reply whose result is only a one-item content array. -/
theorem c10_call_tool_result_default_is_error_witness :
    CallToolResult.fromJson
      (.obj [("content", .arr [.obj [("type", .str "text"), ("text", .str "hi")]])])
      = .ok ⟨[Content.text "hi"], false⟩ :=
  c10_call_tool_result_default_is_error
    (.obj [("content", .arr [.obj [("type", .str "text"), ("text", .str "hi")]])])
    [("content", .arr [.obj [("type", .str "text"), ("text", .str "hi")]])]
    [Content.text "hi"] rfl rfl rfl

/-- C3, counterexample: after a completed handshake, a duplicate `initialize`
request does not terminate the session.  Running the loop over the message
sequence ⟨initialize, initialize, tools/list(id 2)⟩ still answers the
`tools/list` request that follows the duplicate: the loop logged the error
and kept processing inbound requests. -/
theorem c3_counterexample_second_initialize :
    runLoop (Server.new "test") false
        [initReqJson, initReqJson, toolsListRequestJson (.num 2)]
      = [responseToJson (.num 0) (InitializeResult.toJson
          { protocol_version := LATEST_PROTOCOL_VERSION,
            capabilities := ServerCapabilities.default,
            server_info := { name := "test", version := CARGO_PKG_VERSION } }),
         responseToJson (.num 2) (.obj [("tools", .arr [])])] := by rfl

/-- C3, amended: a second `initialize` request on an initialised session makes
`dispatch_request` return the error `Other "Client sent 'initialize' request
twice."` with no reply sent, but the session does **not** terminate: `run`
only logs the dispatch error, the `initialized` flag stays set, and the loop
processes the remaining inbound messages exactly as if the duplicate had not
arrived. -/
theorem c3_second_initialize_logged_not_fatal (server : Server) (raw : Json)
    (req : Request Json) (hreq : parseRequestJson raw = .ok req)
    (hm : req.method = "initialize") :
    dispatchRequest server true raw
      = ⟨.error (.other "Client sent 'initialize' request twice."), true, []⟩ ∧
    ∀ rest, runLoop server true (raw :: rest) = runLoop server true rest := by
  have hmain : dispatchRequest server true raw
      = ⟨.error (.other "Client sent 'initialize' request twice."), true, []⟩ := by
    rw [dispatchRequest_eq_core server true raw req hreq]
    obtain ⟨jr, rid, mth, prms⟩ := req
    simp only at hm
    subst hm
    simp [dispatchCore, hreq]
  refine ⟨hmain, fun rest => ?_⟩
  show (dispatchRequest server true raw).sent
      ++ runLoop server (dispatchRequest server true raw).inited rest
    = runLoop server true rest
  rw [hmain]
  rfl

/-- Witness for C3 (amended) at the concrete duplicate `initialize` of the
counterexample's run. -/
theorem c3_second_initialize_logged_not_fatal_witness :
    (dispatchRequest (Server.new "test") true initReqJson
      = ⟨.error (.other "Client sent 'initialize' request twice."), true, []⟩) ∧
    (runLoop (Server.new "test") true [initReqJson, toolsListRequestJson (.num 2)]
      = runLoop (Server.new "test") true [toolsListRequestJson (.num 2)]) :=
  have h := c3_second_initialize_logged_not_fatal (Server.new "test") initReqJson
    ⟨"2.0", .num 0, "initialize",
      .obj [("protocolVersion", .str "2024-11-05"),
            ("capabilities", .obj []),
            ("clientInfo", .obj [("name", .str "test-client"), ("version", .str "0")])]⟩
    (by rfl) rfl
  ⟨h.1, h.2 [toolsListRequestJson (.num 2)]⟩

/-- C5: on an initialised session, a `tools/call` request whose `params.name`
matches no registered tool is answered with exactly one JSON-RPC error
response echoing the request's id, carrying code −32601
(`METHOD_NOT_FOUND`) and the message `Tool '<name>' not found`, which
contains the fragment `not found`. -/
theorem c5_unknown_tool_method_not_found (server : Server) (raw : Json)
    (req : Request Json) (p : CallToolParams)
    (hreq : parseRequestJson raw = .ok req)
    (hm : req.method = "tools/call")
    (hp : parseCallToolParams req.params = .ok p)
    (habs : server.tools_and_handlers.lookup p.name = none) :
    dispatchRequest server true raw
      = ⟨.ok (), true, [errorResponseToJson req.id METHOD_NOT_FOUND
          (("Tool '" ++ p.name ++ "' ") ++ "not found")]⟩ ∧
    METHOD_NOT_FOUND = -32601 := by
  refine ⟨?_, rfl⟩
  rw [← append_not_found]
  rw [dispatchRequest_eq_core server true raw req hreq]
  obtain ⟨jr, rid, mth, prms⟩ := req
  simp only at hm hp
  subst hm
  simp [dispatchCore, hreq, hp, habs]

/-- Witness for C5: calling `nonexistent-tool` on a server with no tools. -/
theorem c5_unknown_tool_method_not_found_witness :
    (dispatchRequest (Server.new "test") true (callReqJson 101 "nonexistent-tool" (.obj []))
      = ⟨.ok (), true, [errorResponseToJson (.num 101) METHOD_NOT_FOUND
          (("Tool '" ++ "nonexistent-tool" ++ "' ") ++ "not found")]⟩) ∧
    METHOD_NOT_FOUND = -32601 :=
  c5_unknown_tool_method_not_found (Server.new "test")
    (callReqJson 101 "nonexistent-tool" (.obj []))
    ⟨"2.0", .num 101, "tools/call",
      .obj [("name", .str "nonexistent-tool"), ("arguments", .obj [])]⟩
    ⟨"nonexistent-tool", .obj []⟩ (by rfl) rfl rfl rfl

/-- C4: for a tool registered through `register_tool_typed`, a `tools/call`
whose `arguments` fail to deserialise into the argument type is answered with
a **success** response (the reply has a `result` member and no `error`
member) whose `CallToolResult` has `isError = true` and a single text content
item reading `Invalid arguments for tool '<name>'` followed by the serde
error and the tool's expected schema pretty-printed; the outcome is the same
for every user handler, which is therefore never consulted. -/
theorem c4_typed_tool_invalid_arguments {Args : Type} (server : Server) (tool : Tool)
    (deArgs : Json → Except String Args) (pretty : Json → String)
    (userHandler : Args → Except SdkError CallToolResult)
    (raw : Json) (req : Request Json) (p : CallToolParams) (e : String)
    (hreq : parseRequestJson raw = .ok req)
    (hm : req.method = "tools/call")
    (hp : parseCallToolParams req.params = .ok p)
    (hname : p.name = tool.name)
    (hde : deArgs p.arguments = .error e) :
    dispatchRequest (server.register_tool_typed tool deArgs pretty userHandler) true raw
      = ⟨.ok (), true,
          [responseToJson req.id (CallToolResult.toJson
            { content := [Content.text
                ((("Invalid arguments for tool '" ++ tool.name ++ "'") ++ ": ") ++ e
                  ++ ". Expected schema: " ++ pretty tool.input_schema)],
              is_error := true })]⟩ ∧
    (responseToJson req.id (CallToolResult.toJson
      { content := [Content.text
          ((("Invalid arguments for tool '" ++ tool.name ++ "'") ++ ": ") ++ e
            ++ ". Expected schema: " ++ pretty tool.input_schema)],
        is_error := true })).get "error" = none := by
  refine ⟨?_, by rfl⟩
  rw [← append_quote_colon]
  rw [dispatchRequest_eq_core _ true raw req hreq]
  obtain ⟨jr, rid, mth, prms⟩ := req
  simp only at hm hp
  subst hm
  simp only [dispatchCore, hreq]
  rw [if_neg (by simp)]
  simp only [hp]
  unfold Server.register_tool_typed
  simp only
  rw [hname, lookup_mapInsert_self]
  simp [ToolHandler.call, hde]

/-- Witness for C4: `srvTypedTool`'s `add` tool called with arguments its
deserialiser rejects. -/
theorem c4_typed_tool_invalid_arguments_witness :
    (dispatchRequest srvTypedTool true (callReqJson 3 "add" (.obj []))
      = ⟨.ok (), true,
          [responseToJson (.num 3) (CallToolResult.toJson
            { content := [Content.text
                ((("Invalid arguments for tool '" ++ "add" ++ "'") ++ ": ")
                  ++ "expected i32" ++ ". Expected schema: " ++ "PRETTY-SCHEMA")],
              is_error := true })]⟩) ∧
    (responseToJson (.num 3) (CallToolResult.toJson
      { content := [Content.text
          ((("Invalid arguments for tool '" ++ "add" ++ "'") ++ ": ")
            ++ "expected i32" ++ ". Expected schema: " ++ "PRETTY-SCHEMA")],
        is_error := true })).get "error" = none :=
  c4_typed_tool_invalid_arguments (Server.new "typed")
    { Tool.default with name := "add", input_schema := .obj [("type", .str "object")] }
    (fun (_ : Json) => (Except.error "expected i32" : Except String Nat))
    (fun _ => "PRETTY-SCHEMA")
    (fun _ => .ok CallToolResult.default)
    (callReqJson 3 "add" (.obj []))
    ⟨"2.0", .num 3, "tools/call", .obj [("name", .str "add"), ("arguments", .obj [])]⟩
    ⟨"add", .obj []⟩ "expected i32" (by rfl) rfl rfl rfl rfl

/-- C6: the `InitializeResult` the handshake produces advertises
`tools: {listChanged: false}` exactly when at least one tool is registered;
with an empty registry the serialised capabilities object has no `tools`
member at all. -/
theorem c6_capabilities_iff_tools (server : Server) (raw : Json)
    (initReq : Request InitializeRequestParams)
    (hmethod : raw.get "method" = some (.str "initialize"))
    (hparse : parseInitializeRequest raw = .ok initReq) :
    ∃ caps : ServerCapabilities,
      handleInit server raw
        = ⟨.ok (), true, [responseToJson initReq.id (InitializeResult.toJson
            { protocol_version := LATEST_PROTOCOL_VERSION,
              capabilities := caps,
              server_info := { name := server.name, version := CARGO_PKG_VERSION } })]⟩ ∧
      (caps.tools = some ⟨some false⟩ ↔ server.tools_and_handlers ≠ []) ∧
      (server.tools_and_handlers = [] → caps.toJson.get "tools" = none) ∧
      (server.tools_and_handlers ≠ [] →
        caps.toJson.get "tools" = some (.obj [("listChanged", .bool false)])) := by
  refine ⟨if server.tools_and_handlers.isEmpty then ServerCapabilities.default
          else { tools := some { listChanged := some false } }, ?_, ?_, ?_, ?_⟩
  · unfold handleInit
    rw [hmethod]
    simp only
    rw [hparse]
  · cases h : server.tools_and_handlers with
    | nil => simp [ServerCapabilities.default]
    | cons a l => simp
  · intro h
    simp [h, ServerCapabilities.default, ServerCapabilities.toJson, Json.get, List.lookup]
  · intro h
    cases hc : server.tools_and_handlers with
    | nil => exact absurd hc h
    | cons a l =>
        simp [hc, ServerCapabilities.toJson, ToolsCapability.toJson, Json.get, List.lookup]

/-- Witness for C6: `srvA` (one registered tool) answers the standard
`initialize` request advertising `tools: {listChanged: false}`; the iff and
the non-empty serialisation conjuncts are discharged at this input. -/
theorem c6_capabilities_iff_tools_witness :
    ∃ caps : ServerCapabilities,
      handleInit srvA initReqJson
        = ⟨.ok (), true, [responseToJson (.num 0) (InitializeResult.toJson
            { protocol_version := LATEST_PROTOCOL_VERSION,
              capabilities := caps,
              server_info := { name := "mock-server", version := CARGO_PKG_VERSION } })]⟩ ∧
      (caps.tools = some ⟨some false⟩ ↔ srvA.tools_and_handlers ≠ []) ∧
      (srvA.tools_and_handlers = [] → caps.toJson.get "tools" = none) ∧
      (srvA.tools_and_handlers ≠ [] →
        caps.toJson.get "tools" = some (.obj [("listChanged", .bool false)])) :=
  c6_capabilities_iff_tools srvA initReqJson
    ⟨"2.0", .num 0, "initialize",
      { protocol_version := "2024-11-05",
        capabilities := ⟨none⟩,
        client_info := { name := "test-client", version := "0" } }⟩
    rfl (by rfl)

/-- C2 (evidence of the defect): the server's `tools/list` reply nests the
tool array inside `{"tools": [...]}` (`ListToolsResult`), but
`Client::list_tools` deserialises the reply's `result` value into a bare
`Vec<Tool>`, which rejects the object.  Against two servers that registered
tools `a` and `b`, every per-session `list_tools` call therefore fails with a
serialisation error, and `list_tools_all` — which only logs per-session
failures — returns the empty list instead of the claimed two-element
collection {a, b} (the crate's own `test_add_and_list_all` asserts two
elements). -/
theorem c2_list_tools_all_returns_empty :
    listToolsAll [srvA, srvB] = [] ∧
    (dispatchRequest srvA true (toolsListRequestJson (.num 1))).sent
      = [responseToJson (.num 1)
          (.obj [("tools", .arr [Tool.toJson (toolNamed "a")])])] ∧
    clientListTools srvA (.num 1)
      = .error (.serialization "invalid type: map, expected a sequence") ∧
    clientListTools srvB (.num 1)
      = .error (.serialization "invalid type: map, expected a sequence") := by
  refine ⟨rfl, rfl, rfl, rfl⟩

/-- Behaviour of one derive-loop step on a skipped field. -/
theorem deriveStep_skip (env : String → Json) (acc : List (String × Json) × List String)
    (f : StructField) (h : f.args.skip = true) : deriveStep env acc f = acc := by
  simp [deriveStep, h]

/-- Behaviour of one derive-loop step on a kept field. -/
theorem deriveStep_no_skip (env : String → Json) (acc : List (String × Json) × List String)
    (f : StructField) (h : f.args.skip = false) :
    deriveStep env acc f =
      (mapInsert (effectiveName f) (propertySchema env f) acc.1,
        if isFieldRequired f then acc.2 ++ [effectiveName f] else acc.2) := by
  simp [deriveStep, h]

/-- Key set of the properties map accumulated by the derive's field loop. -/
theorem mem_props_foldl (env : String → Json) (fields : List StructField)
    (p : List (String × Json)) (r : List String) (k : String) :
    (k ∈ ((fields.foldl (deriveStep env) (p, r)).1).map Prod.fst ↔
      k ∈ p.map Prod.fst ∨ ∃ f ∈ fields, f.args.skip = false ∧ effectiveName f = k) := by
  induction fields generalizing p r with
  | nil => simp
  | cons f fs ih =>
      rcases hs : f.args.skip with _ | _
      · rw [List.foldl_cons, deriveStep_no_skip env (p, r) f hs, ih]
        simp only [mem_keys_mapInsert, List.mem_cons, exists_eq_or_imp, hs, true_and]
        tauto
      · rw [List.foldl_cons, deriveStep_skip env (p, r) f hs, ih]
        simp only [List.mem_cons, exists_eq_or_imp, hs]
        simp

/-- Contents of the required list accumulated by the derive's field loop. -/
theorem mem_required_foldl (env : String → Json) (fields : List StructField)
    (p : List (String × Json)) (r : List String) (k : String) :
    (k ∈ (fields.foldl (deriveStep env) (p, r)).2 ↔
      k ∈ r ∨ ∃ f ∈ fields, f.args.skip = false ∧ isFieldRequired f = true ∧
        effectiveName f = k) := by
  induction fields generalizing p r with
  | nil => simp
  | cons f fs ih =>
      rcases hs : f.args.skip with _ | _
      · rw [List.foldl_cons, deriveStep_no_skip env (p, r) f hs]
        rcases hr : isFieldRequired f with _ | _
        · rw [if_neg (by simp [hr]), ih]
          simp only [List.mem_cons, exists_eq_or_imp, hs, hr, true_and]
          simp
        · rw [if_pos (by simp [hr]), ih]
          simp only [List.mem_append, List.mem_singleton, List.mem_cons,
            exists_eq_or_imp, hs, hr, true_and]
          tauto
      · rw [List.foldl_cons, deriveStep_skip env (p, r) f hs, ih]
        simp only [List.mem_cons, exists_eq_or_imp, hs]
        simp

/-- Recovering the name list from the serialised `required` array. -/
theorem filterMap_str_map (l : List String) :
    (l.map Json.str).filterMap
      (fun j => match j with | .str n => some n | _ => none) = l := by
  induction l with
  | nil => rfl
  | cons a l ih => simp [List.filterMap_cons, ih]

/-- Names of a derived schema's `required` array are exactly the loop's
required list (the array is absent exactly when that list is empty). -/
theorem schemaRequiredNames_derive (env : String → Json) (fields : List StructField) :
    schemaRequiredNames (toolArgumentsDerive env fields)
      = (fields.foldl (deriveStep env) ([], [])).2 := by
  unfold toolArgumentsDerive schemaRequiredNames
  by_cases he : (fields.foldl (deriveStep env) ([], [])).2.isEmpty
  · rw [if_pos he]
    rw [List.isEmpty_iff] at he
    rw [he]
    rfl
  · rw [if_neg he]
    exact filterMap_str_map _

/-- Keys of a derived schema's `properties` object are exactly the loop's
property-map keys. -/
theorem schemaPropertyNames_derive (env : String → Json) (fields : List StructField) :
    schemaPropertyNames (toolArgumentsDerive env fields)
      = ((fields.foldl (deriveStep env) ([], [])).1).map Prod.fst := by
  unfold toolArgumentsDerive schemaPropertyNames
  by_cases he : (fields.foldl (deriveStep env) ([], [])).2.isEmpty
  · rw [if_pos he]
    rfl
  · rw [if_neg he]
    rfl

/-- Required flag of the derive spelt out:
`required.unwrap_or(!is_option(ty))`. -/
theorem isFieldRequired_iff (f : StructField) :
    (isFieldRequired f = true ↔
      f.args.required = some true ∨
        (f.args.required = none ∧ isOptionTy f.ty = false)) := by
  unfold isFieldRequired
  rcases hr : f.args.required with _ | b
  · rcases ho : isOptionTy f.ty with _ | _ <;> simp [hr, ho, Option.getD]
  · rcases b with _ | _ <;> simp [hr, Option.getD]

/-- C8: in a derived argument schema whose fields' renamed names are pairwise
distinct, a field's renamed name is listed in `required` iff the field is not
skipped and either carries an explicit `required = true` override, or carries
no override and is not of `Option` type; a `#[tool_arg(skip)]` field appears
neither among the `properties` keys nor in `required`, while every
non-skipped field appears among the `properties` keys. -/
theorem c8_derive_required_properties (env : String → Json) (fields : List StructField)
    (hnd : (fields.map effectiveName).Nodup) (f : StructField) (hf : f ∈ fields) :
    (f.args.skip = false →
      effectiveName f ∈ schemaPropertyNames (toolArgumentsDerive env fields)) ∧
    (f.args.skip = true →
      effectiveName f ∉ schemaPropertyNames (toolArgumentsDerive env fields) ∧
      effectiveName f ∉ schemaRequiredNames (toolArgumentsDerive env fields)) ∧
    (effectiveName f ∈ schemaRequiredNames (toolArgumentsDerive env fields) ↔
      f.args.skip = false ∧ (f.args.required = some true ∨
        (f.args.required = none ∧ isOptionTy f.ty = false))) := by
  have hinj := List.inj_on_of_nodup_map hnd
  rw [schemaPropertyNames_derive, schemaRequiredNames_derive]
  refine ⟨?_, ?_, ?_⟩
  · intro hs
    rw [mem_props_foldl]
    exact Or.inr ⟨f, hf, hs, rfl⟩
  · intro hs
    constructor
    · rw [mem_props_foldl]
      rintro (hk | ⟨g, hg, hgs, hge⟩)
      · simp at hk
      · have := hinj hg hf hge
        subst this
        rw [hs] at hgs
        exact absurd hgs (by simp)
    · rw [mem_required_foldl]
      rintro (hk | ⟨g, hg, hgs, _, hge⟩)
      · simp at hk
      · have := hinj hg hf hge
        subst this
        rw [hs] at hgs
        exact absurd hgs (by simp)
  · rw [mem_required_foldl]
    constructor
    · rintro (hk | ⟨g, hg, hgs, hgr, hge⟩)
      · simp at hk
      · have := hinj hg hf hge
        subst this
        exact ⟨hgs, (isFieldRequired_iff _).mp hgr⟩
    · rintro ⟨hs, hc⟩
      exact Or.inr ⟨f, hf, hs, (isFieldRequired_iff f).mpr hc, rfl⟩

/-- Witness for C8 on `sampleFields` (a required string `a`, an optional
string `b` renamed `bee` marked `required = true`, a skipped `x`, an optional
`o`), checked at the skipped field `x`. -/
theorem c8_derive_required_properties_witness :
    (fieldX.args.skip = false →
      effectiveName fieldX ∈
        schemaPropertyNames (toolArgumentsDerive (fun _ => .null) sampleFields)) ∧
    (fieldX.args.skip = true →
      effectiveName fieldX ∉
        schemaPropertyNames (toolArgumentsDerive (fun _ => .null) sampleFields) ∧
      effectiveName fieldX ∉
        schemaRequiredNames (toolArgumentsDerive (fun _ => .null) sampleFields)) ∧
    (effectiveName fieldX ∈
        schemaRequiredNames (toolArgumentsDerive (fun _ => .null) sampleFields) ↔
      fieldX.args.skip = false ∧ (fieldX.args.required = some true ∨
        (fieldX.args.required = none ∧ isOptionTy fieldX.ty = false))) :=
  c8_derive_required_properties (fun _ => .null) sampleFields (by decide) fieldX
    (by decide)

end McpSdk
